import Mathlib

/-!
Verification of the MD2 keyframe-model loader and animation player
(`Md2.cpp` / `Md2.hpp`).

The C++ code is shallowly embedded as follows:
* `float` values (the frame cursor, scales, translations, normals) become `ℚ`
  with exact arithmetic; `std::modf` / `std::fmod` become `trunc`-based
  rational operations with C's truncation-toward-zero semantics;
* `int32_t` header fields become `ℤ`; the assignment of an `int32_t` header
  field to an `int16_t` member wraps modulo 2^16 (`toInt16`);
* the owning pointers of the `Md2` object become `Option (List _)`
  (`none` = NULL);
* `Md2::Load` becomes a function from the previous object state and an
  abstract byte stream to the final object state paired with the thrown
  exception, if any.
-/

/-- The animation descriptor `Md2::_Animation`: first frame index, last frame
index (inclusive, `end` in the source, renamed because `end` is a Lean
keyword) and playback rate. The `int16_t` fields become `ℤ`, `float` becomes
`ℚ`. -/
structure Animation where
  start : ℤ
  endFrame : ℤ
  fps : ℚ

/-- Number of frames of a sequence, `Md2::_Animation::FrameCount`
(`end-start+1`). -/
def Animation.FrameCount (a : Animation) : ℤ :=
  a.endFrame - a.start + 1

/-- The fixed animation table `Md2::sAnimations` (21 entries, in source
order: STAND, RUN, ATTACK, PAIN_A, PAIN_B, PAIN_C, JUMP, FLIP, SALUTE,
FALLBACK, WAVE, POINT, CROUCH_STAND, CROUCH_WALK, CROUCH_ATTACK,
CROUCH_PAIN, CROUCH_DEATH, DEATH_FALLBACK, DEATH_FALLFORWARD,
DEATH_FALLBACKSLOW, BOOM). -/
def sAnimations : List Animation :=
  [⟨0, 39, 9⟩, ⟨40, 45, 10⟩, ⟨46, 53, 10⟩, ⟨54, 57, 7⟩, ⟨58, 61, 7⟩,
   ⟨62, 65, 7⟩, ⟨66, 71, 7⟩, ⟨72, 83, 7⟩, ⟨84, 94, 7⟩, ⟨95, 111, 10⟩,
   ⟨112, 122, 7⟩, ⟨123, 134, 6⟩, ⟨135, 153, 10⟩, ⟨154, 159, 7⟩,
   ⟨160, 168, 10⟩, ⟨169, 172, 7⟩, ⟨173, 177, 5⟩, ⟨178, 183, 7⟩,
   ⟨184, 189, 7⟩, ⟨190, 197, 7⟩, ⟨198, 198, 5⟩]

/-- Table lookup `sAnimations[i]` for an `int16_t` index. Reachable indices
are always in range; out-of-range access is undefined behaviour in C and is
given the harmless default `⟨0, 0, 0⟩` here. -/
def anim (i : ℤ) : Animation :=
  sAnimations.getD i.toNat ⟨0, 0, 0⟩

/-- Truncation toward zero of a rational, the behaviour of C's
`(int16_t)` float-to-integer cast and the integral part computed by
`std::modf`. On a normalised fraction `num/den` (with `den > 0`) this is
exactly `num` T-divided by `den`. -/
def trunc (x : ℚ) : ℤ :=
  x.num.tdiv (x.den : ℤ)

/-- C's `fmodf`: `fmod x y = x - trunc (x / y) * y`, the remainder with the
sign of `x`. -/
def fmod (x y : ℚ) : ℚ :=
  x - y * (trunc (x / y) : ℚ)

/-- Wrap of an `int32_t` value stored into an `int16_t` member
(two's-complement truncation). -/
def toInt16 (n : ℤ) : ℤ :=
  (n + 32768) % 65536 - 32768

theorem trunc_eq_floor (x : ℚ) (hx : 0 ≤ x) : trunc x = ⌊x⌋ := by
  rw [Rat.floor_def, trunc,
    Int.tdiv_eq_ediv (Rat.num_nonneg.mpr hx) (Int.ofNat_nonneg x.den)]

theorem trunc_intCast (k : ℤ) : trunc (k : ℚ) = k := by
  simp [trunc, Rat.num_intCast, Rat.den_intCast]

theorem trunc_le (x : ℚ) (hx : 0 ≤ x) : (trunc x : ℚ) ≤ x := by
  rw [trunc_eq_floor x hx]; exact Int.floor_le x

theorem lt_trunc_add_one (x : ℚ) (hx : 0 ≤ x) : x < trunc x + 1 := by
  rw [trunc_eq_floor x hx]; exact_mod_cast Int.lt_floor_add_one x

theorem le_trunc (k : ℤ) (x : ℚ) (hx : 0 ≤ x) (h : (k : ℚ) ≤ x) :
    k ≤ trunc x := by
  rw [trunc_eq_floor x hx]; exact Int.le_floor.mpr h

theorem trunc_eq_of_le_of_lt (k : ℤ) (x : ℚ) (hx : 0 ≤ x)
    (h1 : (k : ℚ) ≤ x) (h2 : x < (k : ℚ) + 1) : trunc x = k := by
  rw [trunc_eq_floor x hx]
  exact Int.floor_eq_iff.mpr ⟨h1, by exact_mod_cast h2⟩

theorem trunc_intCast_div (a b : ℤ) (ha : 0 ≤ a) (hb : 0 < b) :
    trunc ((a : ℚ) / (b : ℚ)) = a / b := by
  have hx : (0 : ℚ) ≤ (a : ℚ) / (b : ℚ) :=
    div_nonneg (by exact_mod_cast ha) (by exact_mod_cast hb.le)
  rw [trunc_eq_floor _ hx]
  lift b to ℕ using hb.le
  exact_mod_cast Rat.floor_intCast_div_natCast a b

theorem fmod_intCast (a b : ℤ) (ha : 0 ≤ a) (hb : 0 < b) :
    fmod (a : ℚ) (b : ℚ) = ((a % b : ℤ) : ℚ) := by
  rw [fmod, trunc_intCast_div a b ha hb, Int.emod_def]
  push_cast
  ring


/-- Entries 0-26 of the normal table (see `sNormals`). -/
def sNormalsA : List (ℚ × ℚ × ℚ) :=
  [(-525731/1000000, 0, 850651/1000000), (-442863/1000000, 29857/125000, 216047/250000),
   (-147621/500000, 0, 955423/1000000), (-309017/1000000, 1/2, 809017/1000000),
   (-8123/50000, 131433/500000, 59441/62500), (0, 0, 1),
   (0, 850651/1000000, 525731/1000000), (-147621/1000000, 716567/1000000, 340859/500000),
   (147621/1000000, 716567/1000000, 340859/500000), (0, 525731/1000000, 850651/1000000),
   (309017/1000000, 1/2, 809017/1000000), (525731/1000000, 0, 850651/1000000),
   (147621/500000, 0, 955423/1000000), (442863/1000000, 29857/125000, 216047/250000),
   (8123/50000, 131433/500000, 59441/62500), (-340859/500000, 147621/1000000, 716567/1000000),
   (-809017/1000000, 309017/1000000, 1/2), (-117557/200000, 17013/40000, 688191/1000000),
   (-850651/1000000, 525731/1000000, 0), (-216047/250000, 442863/1000000, 29857/125000),
   (-716567/1000000, 340859/500000, 147621/1000000), (-688191/1000000, 117557/200000, 17013/40000),
   (-1/2, 809017/1000000, 309017/1000000), (-29857/125000, 216047/250000, 442863/1000000),
   (-17013/40000, 688191/1000000, 117557/200000), (-716567/1000000, 340859/500000, -147621/1000000),
   (-1/2, 809017/1000000, -309017/1000000)]

/-- Entries 27-53 of the normal table (see `sNormals`). -/
def sNormalsB : List (ℚ × ℚ × ℚ) :=
  [(-525731/1000000, 850651/1000000, 0), (0, 850651/1000000, -525731/1000000),
   (-29857/125000, 216047/250000, -442863/1000000), (0, 955423/1000000, -147621/500000),
   (-131433/500000, 59441/62500, -8123/50000), (0, 1, 0),
   (0, 955423/1000000, 147621/500000), (-131433/500000, 59441/62500, 8123/50000),
   (29857/125000, 216047/250000, 442863/1000000), (131433/500000, 59441/62500, 8123/50000),
   (1/2, 809017/1000000, 309017/1000000), (29857/125000, 216047/250000, -442863/1000000),
   (131433/500000, 59441/62500, -8123/50000), (1/2, 809017/1000000, -309017/1000000),
   (850651/1000000, 525731/1000000, 0), (716567/1000000, 340859/500000, 147621/1000000),
   (716567/1000000, 340859/500000, -147621/1000000), (525731/1000000, 850651/1000000, 0),
   (17013/40000, 688191/1000000, 117557/200000), (216047/250000, 442863/1000000, 29857/125000),
   (688191/1000000, 117557/200000, 17013/40000), (809017/1000000, 309017/1000000, 1/2),
   (340859/500000, 147621/1000000, 716567/1000000), (117557/200000, 17013/40000, 688191/1000000),
   (955423/1000000, 147621/500000, 0), (1, 0, 0),
   (59441/62500, 8123/50000, 131433/500000)]

/-- Entries 54-80 of the normal table (see `sNormals`). -/
def sNormalsC : List (ℚ × ℚ × ℚ) :=
  [(850651/1000000, -525731/1000000, 0), (955423/1000000, -147621/500000, 0),
   (216047/250000, -442863/1000000, 29857/125000), (59441/62500, -8123/50000, 131433/500000),
   (809017/1000000, -309017/1000000, 1/2), (340859/500000, -147621/1000000, 716567/1000000),
   (850651/1000000, 0, 525731/1000000), (216047/250000, 442863/1000000, -29857/125000),
   (809017/1000000, 309017/1000000, -1/2), (59441/62500, 8123/50000, -131433/500000),
   (525731/1000000, 0, -850651/1000000), (340859/500000, 147621/1000000, -716567/1000000),
   (340859/500000, -147621/1000000, -716567/1000000), (850651/1000000, 0, -525731/1000000),
   (809017/1000000, -309017/1000000, -1/2), (216047/250000, -442863/1000000, -29857/125000),
   (59441/62500, -8123/50000, -131433/500000), (147621/1000000, 716567/1000000, -340859/500000),
   (309017/1000000, 1/2, -809017/1000000), (17013/40000, 688191/1000000, -117557/200000),
   (442863/1000000, 29857/125000, -216047/250000), (117557/200000, 17013/40000, -688191/1000000),
   (688191/1000000, 117557/200000, -17013/40000), (-147621/1000000, 716567/1000000, -340859/500000),
   (-309017/1000000, 1/2, -809017/1000000), (0, 525731/1000000, -850651/1000000),
   (-525731/1000000, 0, -850651/1000000)]

/-- Entries 81-107 of the normal table (see `sNormals`). -/
def sNormalsD : List (ℚ × ℚ × ℚ) :=
  [(-442863/1000000, 29857/125000, -216047/250000), (-147621/500000, 0, -955423/1000000),
   (-8123/50000, 131433/500000, -59441/62500), (0, 0, -1),
   (147621/500000, 0, -955423/1000000), (8123/50000, 131433/500000, -59441/62500),
   (-442863/1000000, -29857/125000, -216047/250000), (-309017/1000000, -1/2, -809017/1000000),
   (-8123/50000, -131433/500000, -59441/62500), (0, -850651/1000000, -525731/1000000),
   (-147621/1000000, -716567/1000000, -340859/500000), (147621/1000000, -716567/1000000, -340859/500000),
   (0, -525731/1000000, -850651/1000000), (309017/1000000, -1/2, -809017/1000000),
   (442863/1000000, -29857/125000, -216047/250000), (8123/50000, -131433/500000, -59441/62500),
   (29857/125000, -216047/250000, -442863/1000000), (1/2, -809017/1000000, -309017/1000000),
   (17013/40000, -688191/1000000, -117557/200000), (716567/1000000, -340859/500000, -147621/1000000),
   (688191/1000000, -117557/200000, -17013/40000), (117557/200000, -17013/40000, -688191/1000000),
   (0, -955423/1000000, -147621/500000), (0, -1, 0),
   (131433/500000, -59441/62500, -8123/50000), (0, -850651/1000000, 525731/1000000),
   (0, -955423/1000000, 147621/500000)]

/-- Entries 108-134 of the normal table (see `sNormals`). -/
def sNormalsE : List (ℚ × ℚ × ℚ) :=
  [(29857/125000, -216047/250000, 442863/1000000), (131433/500000, -59441/62500, 8123/50000),
   (1/2, -809017/1000000, 309017/1000000), (716567/1000000, -340859/500000, 147621/1000000),
   (525731/1000000, -850651/1000000, 0), (-29857/125000, -216047/250000, -442863/1000000),
   (-1/2, -809017/1000000, -309017/1000000), (-131433/500000, -59441/62500, -8123/50000),
   (-850651/1000000, -525731/1000000, 0), (-716567/1000000, -340859/500000, -147621/1000000),
   (-716567/1000000, -340859/500000, 147621/1000000), (-525731/1000000, -850651/1000000, 0),
   (-1/2, -809017/1000000, 309017/1000000), (-29857/125000, -216047/250000, 442863/1000000),
   (-131433/500000, -59441/62500, 8123/50000), (-216047/250000, -442863/1000000, 29857/125000),
   (-809017/1000000, -309017/1000000, 1/2), (-688191/1000000, -117557/200000, 17013/40000),
   (-340859/500000, -147621/1000000, 716567/1000000), (-442863/1000000, -29857/125000, 216047/250000),
   (-117557/200000, -17013/40000, 688191/1000000), (-309017/1000000, -1/2, 809017/1000000),
   (-147621/1000000, -716567/1000000, 340859/500000), (-17013/40000, -688191/1000000, 117557/200000),
   (-8123/50000, -131433/500000, 59441/62500), (442863/1000000, -29857/125000, 216047/250000),
   (8123/50000, -131433/500000, 59441/62500)]

/-- Entries 135-161 of the normal table (see `sNormals`). -/
def sNormalsF : List (ℚ × ℚ × ℚ) :=
  [(309017/1000000, -1/2, 809017/1000000), (147621/1000000, -716567/1000000, 340859/500000),
   (0, -525731/1000000, 850651/1000000), (17013/40000, -688191/1000000, 117557/200000),
   (117557/200000, -17013/40000, 688191/1000000), (688191/1000000, -117557/200000, 17013/40000),
   (-955423/1000000, 147621/500000, 0), (-59441/62500, 8123/50000, 131433/500000),
   (-1, 0, 0), (-850651/1000000, 0, 525731/1000000),
   (-955423/1000000, -147621/500000, 0), (-59441/62500, -8123/50000, 131433/500000),
   (-216047/250000, 442863/1000000, -29857/125000), (-59441/62500, 8123/50000, -131433/500000),
   (-809017/1000000, 309017/1000000, -1/2), (-216047/250000, -442863/1000000, -29857/125000),
   (-59441/62500, -8123/50000, -131433/500000), (-809017/1000000, -309017/1000000, -1/2),
   (-340859/500000, 147621/1000000, -716567/1000000), (-340859/500000, -147621/1000000, -716567/1000000),
   (-850651/1000000, 0, -525731/1000000), (-688191/1000000, 117557/200000, -17013/40000),
   (-117557/200000, 17013/40000, -688191/1000000), (-17013/40000, 688191/1000000, -117557/200000),
   (-17013/40000, -688191/1000000, -117557/200000), (-117557/200000, -17013/40000, -688191/1000000),
   (-688191/1000000, -117557/200000, -17013/40000)]

/-- The fixed normal table `Md2::sNormals` (162 precomputed unit directions,
split into six chunks only to keep elaboration fast); the `float` literals of
the source are embedded as the exact decimal rationals they are written as. -/
def sNormals : List (ℚ × ℚ × ℚ) :=
  sNormalsA ++ sNormalsB ++ sNormalsC ++ sNormalsD ++ sNormalsE ++ sNormalsF

/-- Lookup `sNormals[n]` for a `uint8_t` normal index (out-of-range access is
undefined behaviour in C; here it yields the zero vector). -/
def normalAt (n : ℕ) : ℚ × ℚ × ℚ :=
  sNormals.getD n (0, 0, 0)

/-- A compressed frame vertex `Md2::_Frame::Vertex`: three quantized byte
coordinates and a normal-table index (all `uint8_t`, embedded as `ℕ`). -/
structure FrameVertex where
  x : ℕ
  y : ℕ
  z : ℕ
  n : ℕ
deriving Inhabited, DecidableEq

/-- A keyframe `Md2::_Frame`: vertex array, per-axis scale, per-axis
translation and a 16-byte name (embedded as a list of byte values). -/
structure Frame where
  vertices : List FrameVertex
  scale : ℚ × ℚ × ℚ
  translation : ℚ × ℚ × ℚ
  name : List ℕ
deriving Inhabited

/-- A triangle `Md2::_Triangle`: three position-vertex indices and three
texcoord indices (`uint16_t[3]` arrays, embedded as lists of length 3). -/
structure Triangle where
  iPos : List ℕ
  iSt : List ℕ
deriving Inhabited, DecidableEq

/-- A texture coordinate pair `Md2::_TexCoord` (`int16_t` each). -/
structure TexCoord where
  s : ℤ
  t : ℤ
deriving Inhabited, DecidableEq

/-- A skin record `Md2::Skin`: a 64-byte name. -/
structure Skin where
  name : List ℕ
deriving Inhabited, DecidableEq

/-- An output vertex record `Md2::Vertex`: position, normal and texture
coordinates. -/
structure Vertex where
  p : ℚ × ℚ × ℚ
  n : ℚ × ℚ × ℚ
  st : ℚ × ℚ
deriving Inhabited

/-- The file header `_Md2Header` (all fields `int32_t`). -/
structure Md2Header where
  ident : ℤ
  version : ℤ
  skinWidth : ℤ
  skinHeight : ℤ
  frameSize : ℤ
  skinCnt : ℤ
  vertexCnt : ℤ
  texCoordCnt : ℤ
  triangleCnt : ℤ
  glcmdCnt : ℤ
  frameCnt : ℤ
  skinOffset : ℤ
  texCoordOffset : ℤ
  triangleOffset : ℤ
  frameOffset : ℤ
  glcmdOffset : ℤ
  endOffset : ℤ

/-- An abstract input byte stream: whether it opens, the header it yields,
and the records each section read produces (sections are located by the
header offsets; reading `k` records of a section yields the records at
indices `0..k-1`). `frameVertexData i v` is vertex `v` of frame `i`. -/
structure ByteStream where
  openOK : Bool
  header : Md2Header
  skinData : ℕ → Skin
  texCoordData : ℕ → TexCoord
  triangleData : ℕ → Triangle
  frameScale : ℕ → ℚ × ℚ × ℚ
  frameTranslation : ℕ → ℚ × ℚ × ℚ
  frameName : ℕ → List ℕ
  frameVertexData : ℕ → ℕ → FrameVertex

/-- The `Md2` object: owned arrays (`Option` = the pointer members, `none` =
`NULL`), the `int16_t` count/dimension members, and the playback state. -/
structure Md2 where
  mSkins : Option (List Skin)
  mTexCoords : Option (List TexCoord)
  mTriangles : Option (List Triangle)
  mFrames : Option (List Frame)
  mSkinCnt : ℤ
  mTexCoordCnt : ℤ
  mTriangleCnt : ℤ
  mFrameCnt : ℤ
  mVertexCnt : ℤ
  mSkinWidth : ℤ
  mSkinHeight : ℤ
  mActiveAnimation : ℤ
  mActiveFrame : ℚ
  mSpeed : ℚ
  mIsPlaying : Bool

/-- The state established by the default constructor `Md2::Md2()`. -/
def Md2.init : Md2 :=
  { mSkins := none, mTexCoords := none, mTriangles := none, mFrames := none,
    mSkinCnt := -1, mTexCoordCnt := -1, mTriangleCnt := -1, mFrameCnt := -1,
    mVertexCnt := -1, mSkinWidth := -1, mSkinHeight := -1,
    mActiveAnimation := 0, mActiveFrame := 0, mSpeed := 1, mIsPlaying := true }

/-- The clear operation `Md2::_Clear`: release every owned array and reset
the counts and dimensions to `-1`; playback fields are untouched. -/
def Md2._Clear (m : Md2) : Md2 :=
  { m with
    mSkins := none, mTexCoords := none, mTriangles := none, mFrames := none,
    mSkinCnt := -1, mTexCoordCnt := -1, mTriangleCnt := -1, mFrameCnt := -1,
    mVertexCnt := -1, mSkinWidth := -1, mSkinHeight := -1 }

/-- The six exception kinds thrown by `Md2::Load`. -/
inductive Md2Error where
  | FileNotFound
  | BadIdent
  | BadVersion
  | BadTriangleData
  | BadFrameData
  | BadVertexData
deriving DecidableEq

/-- The magic identifier constant of the source,
the expression 0x49 | 0x44 << 8 | 0x50 << 16 | 0x32 << 24 built from the
ASCII codes of I, D, P, 2 (73, 68, 80, 50). -/
def identIDP2 : ℤ :=
  73 + 68 * 256 + 80 * 65536 + 50 * 16777216

/-- Step of `Md2::Load`: copy the header counts and dimensions into the
`int16_t` members (each `int32_t` value is truncated). -/
def readCounts (m : Md2) (h : Md2Header) : Md2 :=
  { m with
    mSkinCnt := toInt16 h.skinCnt,
    mTexCoordCnt := toInt16 h.texCoordCnt,
    mTriangleCnt := toInt16 h.triangleCnt,
    mFrameCnt := toInt16 h.frameCnt,
    mVertexCnt := toInt16 h.vertexCnt,
    mSkinWidth := toInt16 h.skinWidth,
    mSkinHeight := toInt16 h.skinHeight }

/-- Step of `Md2::Load`: if the skin count is positive, allocate and read
that many skin records. -/
def readSkins (m : Md2) (bs : ByteStream) : Md2 :=
  if 0 < m.mSkinCnt then
    { m with mSkins := some ((List.range m.mSkinCnt.toNat).map bs.skinData) }
  else m

/-- Step of `Md2::Load`: if the texcoord count is positive, allocate and
read that many texcoord records. -/
def readTexCoords (m : Md2) (bs : ByteStream) : Md2 :=
  if 0 < m.mTexCoordCnt then
    { m with
      mTexCoords := some ((List.range m.mTexCoordCnt.toNat).map bs.texCoordData) }
  else m

/-- Step of `Md2::Load`: allocate and read the triangle records (invoked
only when the triangle count is positive). -/
def readTriangles (m : Md2) (bs : ByteStream) : Md2 :=
  { m with
    mTriangles := some ((List.range m.mTriangleCnt.toNat).map bs.triangleData) }

/-- Step of `Md2::Load`: allocate the frame array (`new _Frame[198]`,
default-constructed frames with no vertex data yet). -/
def allocFrames (m : Md2) : Md2 :=
  { m with mFrames := some (List.replicate 198 default) }

/-- Step of `Md2::Load`: the frame-reading loop; for each frame read the
scale, the translation, the 16-byte name and the vertex records. -/
def readFrames (m : Md2) (bs : ByteStream) : Md2 :=
  { m with
    mFrames := some ((List.range m.mFrameCnt.toNat).map (fun i =>
      { vertices := (List.range m.mVertexCnt.toNat).map (bs.frameVertexData i),
        scale := bs.frameScale i,
        translation := bs.frameTranslation i,
        name := bs.frameName i })) }

/-- The loader `Md2::Load`. The destination object is first cleared; the
header checks, section reads and error exits then mirror the source line by
line (the section reads are the step functions above). The result pairs the
final object state with the exception thrown, if any (`none` = the load
returned normally). -/
def Md2.Load (dst : Md2) (bs : ByteStream) : Md2 × Option Md2Error :=
  let m := dst._Clear
  if bs.openOK = false then (m, some Md2Error.FileNotFound) else
  if bs.header.ident ≠ identIDP2 then (m, some Md2Error.BadIdent) else
  if bs.header.version ≠ 8 then (m, some Md2Error.BadVersion) else
  let m := readTexCoords (readSkins (readCounts m bs.header) bs) bs
  if 0 < m.mTriangleCnt then
    let m := readTriangles m bs
    if m.mFrameCnt = 198 then
      let m := allocFrames m
      if 0 < m.mVertexCnt then (readFrames m bs, none)
      else (m, some Md2Error.BadVertexData)
    else (m, some Md2Error.BadFrameData)
  else (m, some Md2Error.BadTriangleData)

theorem readSkins_count_proj (m : Md2) (bs : ByteStream) :
    (readSkins m bs).mSkinCnt = m.mSkinCnt ∧
    (readSkins m bs).mTexCoordCnt = m.mTexCoordCnt ∧
    (readSkins m bs).mTriangleCnt = m.mTriangleCnt ∧
    (readSkins m bs).mFrameCnt = m.mFrameCnt ∧
    (readSkins m bs).mVertexCnt = m.mVertexCnt := by
  unfold readSkins
  split <;> exact ⟨rfl, rfl, rfl, rfl, rfl⟩

theorem readTexCoords_count_proj (m : Md2) (bs : ByteStream) :
    (readTexCoords m bs).mSkinCnt = m.mSkinCnt ∧
    (readTexCoords m bs).mTexCoordCnt = m.mTexCoordCnt ∧
    (readTexCoords m bs).mTriangleCnt = m.mTriangleCnt ∧
    (readTexCoords m bs).mFrameCnt = m.mFrameCnt ∧
    (readTexCoords m bs).mVertexCnt = m.mVertexCnt := by
  unfold readTexCoords
  split <;> exact ⟨rfl, rfl, rfl, rfl, rfl⟩

/-- The count members after the header-copy and section-read prefix of the
loader equal the truncated header fields. -/
theorem loadPrefix_counts (dst : Md2) (bs : ByteStream) :
    (readTexCoords (readSkins (readCounts dst._Clear bs.header) bs) bs).mSkinCnt
      = toInt16 bs.header.skinCnt ∧
    (readTexCoords (readSkins (readCounts dst._Clear bs.header) bs) bs).mTexCoordCnt
      = toInt16 bs.header.texCoordCnt ∧
    (readTexCoords (readSkins (readCounts dst._Clear bs.header) bs) bs).mTriangleCnt
      = toInt16 bs.header.triangleCnt ∧
    (readTexCoords (readSkins (readCounts dst._Clear bs.header) bs) bs).mFrameCnt
      = toInt16 bs.header.frameCnt ∧
    (readTexCoords (readSkins (readCounts dst._Clear bs.header) bs) bs).mVertexCnt
      = toInt16 bs.header.vertexCnt := by
  obtain ⟨t1, t2, t3, t4, t5⟩ :=
    readTexCoords_count_proj (readSkins (readCounts dst._Clear bs.header) bs) bs
  obtain ⟨s1, s2, s3, s4, s5⟩ := readSkins_count_proj (readCounts dst._Clear bs.header) bs
  exact ⟨t1.trans s1, t2.trans s2, t3.trans s3, t4.trans s4, t5.trans s5⟩

theorem readTriangles_count_proj (m : Md2) (bs : ByteStream) :
    (readTriangles m bs).mSkinCnt = m.mSkinCnt ∧
    (readTriangles m bs).mTexCoordCnt = m.mTexCoordCnt ∧
    (readTriangles m bs).mTriangleCnt = m.mTriangleCnt ∧
    (readTriangles m bs).mFrameCnt = m.mFrameCnt ∧
    (readTriangles m bs).mVertexCnt = m.mVertexCnt :=
  ⟨rfl, rfl, rfl, rfl, rfl⟩

theorem allocFrames_count_proj (m : Md2) :
    (allocFrames m).mSkinCnt = m.mSkinCnt ∧
    (allocFrames m).mTexCoordCnt = m.mTexCoordCnt ∧
    (allocFrames m).mTriangleCnt = m.mTriangleCnt ∧
    (allocFrames m).mFrameCnt = m.mFrameCnt ∧
    (allocFrames m).mVertexCnt = m.mVertexCnt :=
  ⟨rfl, rfl, rfl, rfl, rfl⟩

theorem readFrames_count_proj (m : Md2) (bs : ByteStream) :
    (readFrames m bs).mSkinCnt = m.mSkinCnt ∧
    (readFrames m bs).mTexCoordCnt = m.mTexCoordCnt ∧
    (readFrames m bs).mTriangleCnt = m.mTriangleCnt ∧
    (readFrames m bs).mFrameCnt = m.mFrameCnt ∧
    (readFrames m bs).mVertexCnt = m.mVertexCnt :=
  ⟨rfl, rfl, rfl, rfl, rfl⟩

/-- Accessor `Md2::SkinCount`. -/
def Md2.SkinCount (m : Md2) : ℤ := m.mSkinCnt

/-- Accessor `Md2::TexCoordCount`. -/
def Md2.TexCoordCount (m : Md2) : ℤ := m.mTexCoordCnt

/-- Accessor `Md2::TriangleCount`. -/
def Md2.TriangleCount (m : Md2) : ℤ := m.mTriangleCnt

/-- Accessor `Md2::FrameCount`. -/
def Md2.FrameCount (m : Md2) : ℤ := m.mFrameCnt

/-- Accessor `Md2::VertexCount`. -/
def Md2.VertexCount (m : Md2) : ℤ := m.mVertexCnt

/-- Accessor `Md2::SkinWidth`. -/
def Md2.SkinWidth (m : Md2) : ℤ := m.mSkinWidth

/-- Accessor `Md2::SkinHeight`. -/
def Md2.SkinHeight (m : Md2) : ℤ := m.mSkinHeight

/-- Accessor `Md2::IsPlaying`. -/
def Md2.IsPlaying (m : Md2) : Bool := m.mIsPlaying

/-- Operation `Md2::Play`. -/
def Md2.Play (m : Md2) : Md2 :=
  { m with mIsPlaying := true }

/-- Operation `Md2::Pause`. -/
def Md2.Pause (m : Md2) : Md2 :=
  { m with mIsPlaying := false }

/-- Operation `Md2::NextAnimation`: increment the active index; if it
reaches `ANIMATION_BOOM` (20) reset it to `ANIMATION_STAND` (0); set the
cursor to the new sequence first frame. -/
def Md2.NextAnimation (m : Md2) : Md2 :=
  let a := m.mActiveAnimation + 1
  let a2 := if 20 ≤ a then 0 else a
  { m with mActiveAnimation := a2, mActiveFrame := ((anim a2).start : ℚ) }

/-- Operation `Md2::PreviousAnimation`: decrement the active index; if it
equals `-1` add `ANIMATION_BOOM` (20); set the cursor to the new sequence
first frame. -/
def Md2.PreviousAnimation (m : Md2) : Md2 :=
  let a := m.mActiveAnimation - 1
  let a2 := if a = -1 then a + 20 else a
  { m with mActiveAnimation := a2, mActiveFrame := ((anim a2).start : ℚ) }

/-- Operation `Md2::Update`: if paused do nothing; otherwise advance the
cursor by `speed * dt * fps` and, when it reaches or exceeds the sequence
end, rewrap it as fractional-part plus `fmod(whole - start, frameCount)`
plus `start`. -/
def Md2.Update (dt : ℚ) (m : Md2) : Md2 :=
  if m.mIsPlaying = false then m else
  let sq := anim m.mActiveAnimation
  let f := m.mActiveFrame + m.mSpeed * dt * sq.fps
  if (sq.endFrame : ℚ) ≤ f then
    { m with mActiveFrame :=
        (f - (trunc f : ℚ))
        + fmod ((trunc f : ℚ) - (sq.start : ℚ)) ((sq.FrameCount : ℤ) : ℚ)
        + (sq.start : ℚ) }
  else
    { m with mActiveFrame := f }

/-- One output record of `Md2::GenVertices` for triangle `i`, corner `j`
(the body of the double loop, which writes output index `i*3+j`). -/
def Md2.genCorner (m : Md2) (i j : ℕ) : Vertex :=
  let sq := anim m.mActiveAnimation
  let lerp := m.mActiveFrame - (trunc m.mActiveFrame : ℚ)
  let oneMinusLerp := 1 - lerp
  let activeFrameIdx := trunc m.mActiveFrame
  let nextFrame := if activeFrameIdx = sq.endFrame then sq.start
    else activeFrameIdx + 1
  let tri := (m.mTriangles.getD []).getD i default
  let frameA := (m.mFrames.getD []).getD activeFrameIdx.toNat default
  let frameB := (m.mFrames.getD []).getD nextFrame.toNat default
  let vertA := frameA.vertices.getD (tri.iPos.getD j 0) default
  let vertB := frameB.vertices.getD (tri.iPos.getD j 0) default
  let normA := normalAt vertA.n
  let normB := normalAt vertB.n
  let texCoord := (m.mTexCoords.getD []).getD (tri.iSt.getD j 0) default
  let posA : ℚ × ℚ × ℚ :=
    (frameA.scale.1 * (vertA.x : ℚ) + frameA.translation.1,
     frameA.scale.2.1 * (vertA.y : ℚ) + frameA.translation.2.1,
     frameA.scale.2.2 * (vertA.z : ℚ) + frameA.translation.2.2)
  let posB : ℚ × ℚ × ℚ :=
    (frameB.scale.1 * (vertB.x : ℚ) + frameB.translation.1,
     frameB.scale.2.1 * (vertB.y : ℚ) + frameB.translation.2.1,
     frameB.scale.2.2 * (vertB.z : ℚ) + frameB.translation.2.2)
  { p := (oneMinusLerp * posA.1 + lerp * posB.1,
          oneMinusLerp * posA.2.1 + lerp * posB.2.1,
          oneMinusLerp * posA.2.2 + lerp * posB.2.2),
    n := (oneMinusLerp * normA.1 + lerp * normB.1,
          oneMinusLerp * normA.2.1 + lerp * normB.2.1,
          oneMinusLerp * normA.2.2 + lerp * normB.2.2),
    st := ((texCoord.s : ℚ) / (m.mSkinWidth : ℚ),
           1 - (texCoord.t : ℚ) / (m.mSkinHeight : ℚ)) }

/-- Operation `Md2::GenVertices`: iterate the double loop in
triangle-major, corner-minor order and write each record into the
caller-provided output buffer. The output index `i*3+j` is stored into a
`uint16_t` variable in the source, so each write lands at buffer position
`(i*3+j) % 2^16`: when `TriangleCount * 3` exceeds 65536, later corners
overwrite earlier records and positions at or beyond 65536 are never
written (they keep the buffer's prior contents). -/
def Md2.GenVertices (m : Md2) (buf : List Vertex) : List Vertex :=
  (List.range (m.mTriangleCnt.toNat * 3)).foldl
    (fun b idx => b.set (idx % 65536) (m.genCorner (idx / 3) (idx % 3))) buf

/-- States reachable from the default-constructed playback state by the
five playback operations, with arbitrary time steps. -/
inductive Reachable : Md2 → Prop where
  | init : Reachable Md2.init
  | play {s : Md2} : Reachable s → Reachable s.Play
  | pause {s : Md2} : Reachable s → Reachable s.Pause
  | next {s : Md2} : Reachable s → Reachable s.NextAnimation
  | prev {s : Md2} : Reachable s → Reachable s.PreviousAnimation
  | update {s : Md2} (dt : ℚ) : Reachable s → Reachable (Md2.Update dt s)

/-- States reachable from the default-constructed playback state by the
five playback operations with non-negative time steps. -/
inductive ReachableNN : Md2 → Prop where
  | init : ReachableNN Md2.init
  | play {s : Md2} : ReachableNN s → ReachableNN s.Play
  | pause {s : Md2} : ReachableNN s → ReachableNN s.Pause
  | next {s : Md2} : ReachableNN s → ReachableNN s.NextAnimation
  | prev {s : Md2} : ReachableNN s → ReachableNN s.PreviousAnimation
  | update {s : Md2} (dt : ℚ) (h : 0 ≤ dt) :
      ReachableNN s → ReachableNN (Md2.Update dt s)

/-- Every entry of the animation table has a non-negative first frame, a
first frame at most its last frame, and a positive rate. -/
theorem sAnimations_entry_facts :
    ∀ A ∈ sAnimations, 0 ≤ A.start ∧ A.start ≤ A.endFrame ∧ 0 < A.fps := by
  intro A hA
  simp only [sAnimations, List.mem_cons, List.not_mem_nil, or_false] at hA
  rcases hA with rfl|rfl|rfl|rfl|rfl|rfl|rfl|rfl|rfl|rfl|rfl|rfl|rfl|rfl|rfl|rfl|rfl|rfl|rfl|rfl|rfl <;>
    refine ⟨by norm_num, by norm_num, by norm_num⟩

theorem anim_mem (a : ℤ) (h1 : a ≤ 20) : anim a ∈ sAnimations := by
  have hlen : sAnimations.length = 21 := rfl
  have hlt : a.toNat < sAnimations.length := by omega
  rw [anim, List.getD_eq_getElem _ _ hlt]
  exact List.getElem_mem hlt

/-- Basic facts about the animation-table entries reachable by playback
(indices 0-19 and, for completeness, 20): first frame non-negative, first at
most last, positive rate. -/
theorem anim_table_facts (a : ℤ) (h0 : 0 ≤ a) (h1 : a ≤ 19) :
    0 ≤ (anim a).start ∧ (anim a).start ≤ (anim a).endFrame ∧
    0 < (anim a).fps :=
  sAnimations_entry_facts (anim a) (anim_mem a (by omega))

/-- Invariant: the active animation index stays in the playable range. -/
def InvIdx (s : Md2) : Prop :=
  0 ≤ s.mActiveAnimation ∧ s.mActiveAnimation ≤ 19

/-- Invariant maintained by non-negative-step playback: index in range,
unit speed, cursor in the half-open interval [start, end + 1). -/
def CursorInv (s : Md2) : Prop :=
  InvIdx s ∧ s.mSpeed = 1 ∧
  ((anim s.mActiveAnimation).start : ℚ) ≤ s.mActiveFrame ∧
  s.mActiveFrame < ((anim s.mActiveAnimation).endFrame : ℚ) + 1

theorem invIdx_play {s : Md2} (h : InvIdx s) : InvIdx s.Play := h

theorem invIdx_pause {s : Md2} (h : InvIdx s) : InvIdx s.Pause := h

theorem invIdx_next {s : Md2} (h : InvIdx s) : InvIdx s.NextAnimation := by
  obtain ⟨h0, h1⟩ := h
  simp only [Md2.NextAnimation, InvIdx]
  split <;> omega

theorem invIdx_prev {s : Md2} (h : InvIdx s) : InvIdx s.PreviousAnimation := by
  obtain ⟨h0, h1⟩ := h
  simp only [Md2.PreviousAnimation, InvIdx]
  split <;> omega

theorem update_proj (dt : ℚ) (s : Md2) :
    (Md2.Update dt s).mActiveAnimation = s.mActiveAnimation ∧
    (Md2.Update dt s).mSpeed = s.mSpeed ∧
    (Md2.Update dt s).mIsPlaying = s.mIsPlaying := by
  simp only [Md2.Update]
  split
  · exact ⟨rfl, rfl, rfl⟩
  · split <;> exact ⟨rfl, rfl, rfl⟩

theorem invIdx_update {s : Md2} (dt : ℚ) (h : InvIdx s) :
    InvIdx (Md2.Update dt s) := by
  obtain ⟨ha, hsp, hp⟩ := update_proj dt s
  exact ⟨ha ▸ h.1, ha ▸ h.2⟩

theorem invIdx_of_reachable {s : Md2} (h : Reachable s) : InvIdx s := by
  induction h with
  | init => exact ⟨le_refl 0, by norm_num [Md2.init]⟩
  | play _ ih => exact invIdx_play ih
  | pause _ ih => exact invIdx_pause ih
  | next _ ih => exact invIdx_next ih
  | prev _ ih => exact invIdx_prev ih
  | update dt _ ih => exact invIdx_update dt ih

theorem anim_zero_eval : anim 0 = ⟨0, 39, 9⟩ := rfl

/-- In the wrap branch of `Update` the rewrapped cursor lies in
[start, end + 1). -/
theorem wrap_bounds (st en : ℤ) (h0 : 0 ≤ st) (hse : st ≤ en) (f : ℚ)
    (hf : (en : ℚ) ≤ f) :
    (st : ℚ) ≤ (f - (trunc f : ℚ))
        + fmod ((trunc f : ℚ) - (st : ℚ)) ((en - st + 1 : ℤ) : ℚ)
        + (st : ℚ) ∧
    (f - (trunc f : ℚ))
        + fmod ((trunc f : ℚ) - (st : ℚ)) ((en - st + 1 : ℤ) : ℚ)
        + (st : ℚ) < (en : ℚ) + 1 := by
  have hen0 : (0 : ℚ) ≤ (en : ℚ) := by exact_mod_cast h0.trans hse
  have hf0 : (0 : ℚ) ≤ f := hen0.trans hf
  have hF : en ≤ trunc f := le_trunc en f hf0 hf
  have hcast : (trunc f : ℚ) - (st : ℚ) = ((trunc f - st : ℤ) : ℚ) := by
    push_cast; ring
  rw [hcast, fmod_intCast (trunc f - st) (en - st + 1) (by omega) (by omega)]
  have hr0 : 0 ≤ (trunc f - st) % (en - st + 1) :=
    Int.emod_nonneg _ (by omega)
  have hrlt : (trunc f - st) % (en - st + 1) < en - st + 1 :=
    Int.emod_lt_of_pos _ (by omega)
  have htl : (trunc f : ℚ) ≤ f := trunc_le f hf0
  have htu : f < (trunc f : ℚ) + 1 := lt_trunc_add_one f hf0
  have hr0q : (0 : ℚ) ≤ (((trunc f - st) % (en - st + 1) : ℤ) : ℚ) := by
    exact_mod_cast hr0
  have hrltq : (((trunc f - st) % (en - st + 1) : ℤ) : ℚ) ≤ (en : ℚ) - (st : ℚ) := by
    have : (trunc f - st) % (en - st + 1) ≤ en - st := by omega
    exact_mod_cast this
  constructor <;> linarith

/-- If the incoming cursor already lies in [end, end + 1), the rewrap of
`Update` is the identity. -/
theorem wrap_id (st en : ℤ) (h0 : 0 ≤ st) (hse : st ≤ en) (f : ℚ)
    (hf : (en : ℚ) ≤ f) (hf1 : f < (en : ℚ) + 1) :
    (f - (trunc f : ℚ))
        + fmod ((trunc f : ℚ) - (st : ℚ)) ((en - st + 1 : ℤ) : ℚ)
        + (st : ℚ) = f := by
  have hen0 : (0 : ℚ) ≤ (en : ℚ) := by exact_mod_cast h0.trans hse
  have hf0 : (0 : ℚ) ≤ f := hen0.trans hf
  have hF : trunc f = en := trunc_eq_of_le_of_lt en f hf0 hf hf1
  rw [hF]
  have hcast : (en : ℚ) - (st : ℚ) = ((en - st : ℤ) : ℚ) := by push_cast; ring
  rw [hcast, fmod_intCast (en - st) (en - st + 1) (by omega) (by omega),
    Int.emod_eq_of_lt (by omega) (by omega)]
  push_cast
  ring

theorem cursorInv_play {s : Md2} (h : CursorInv s) : CursorInv s.Play := h

theorem cursorInv_pause {s : Md2} (h : CursorInv s) : CursorInv s.Pause := h

theorem cursorInv_next {s : Md2} (h : CursorInv s) : CursorInv s.NextAnimation := by
  obtain ⟨⟨h0, h1⟩, hsp, _, _⟩ := h
  simp only [Md2.NextAnimation, CursorInv, InvIdx]
  have hidx : 0 ≤ (if 20 ≤ s.mActiveAnimation + 1 then 0 else s.mActiveAnimation + 1)
      ∧ (if 20 ≤ s.mActiveAnimation + 1 then 0 else s.mActiveAnimation + 1) ≤ 19 := by
    constructor <;> (split <;> omega)
  obtain ⟨hq0, hqse, _⟩ := anim_table_facts _ hidx.1 hidx.2
  refine ⟨hidx, hsp, le_refl _, ?_⟩
  have : (anim (if 20 ≤ s.mActiveAnimation + 1 then 0 else s.mActiveAnimation + 1)).start
      ≤ (anim (if 20 ≤ s.mActiveAnimation + 1 then 0 else s.mActiveAnimation + 1)).endFrame := hqse
  exact_mod_cast by omega

theorem cursorInv_prev {s : Md2} (h : CursorInv s) : CursorInv s.PreviousAnimation := by
  obtain ⟨⟨h0, h1⟩, hsp, _, _⟩ := h
  simp only [Md2.PreviousAnimation, CursorInv, InvIdx]
  set a2 := (if s.mActiveAnimation - 1 = -1 then s.mActiveAnimation - 1 + 20
      else s.mActiveAnimation - 1) with ha2
  have hidx : 0 ≤ a2 ∧ a2 ≤ 19 := by
    rw [ha2]; constructor <;> (split <;> omega)
  obtain ⟨hq0, hqse, _⟩ := anim_table_facts _ hidx.1 hidx.2
  refine ⟨hidx, hsp, le_refl _, ?_⟩
  exact_mod_cast (by omega : ((anim a2).start : ℤ) < (anim a2).endFrame + 1)

theorem cursorInv_update {s : Md2} (dt : ℚ) (hdt : 0 ≤ dt) (h : CursorInv s) :
    CursorInv (Md2.Update dt s) := by
  obtain ⟨⟨h0, h1⟩, hsp, hlo, hhi⟩ := h
  obtain ⟨hA0, hAse, hAfps⟩ := anim_table_facts _ h0 h1
  by_cases hp : s.mIsPlaying = false
  · simp only [Md2.Update, if_pos hp]
    exact ⟨⟨h0, h1⟩, hsp, hlo, hhi⟩
  · simp only [Md2.Update, if_neg hp]
    have hfge : s.mActiveFrame ≤
        s.mActiveFrame + s.mSpeed * dt * (anim s.mActiveAnimation).fps := by
      rw [hsp]; nlinarith
    by_cases hw : ((anim s.mActiveAnimation).endFrame : ℚ) ≤
        s.mActiveFrame + s.mSpeed * dt * (anim s.mActiveAnimation).fps
    · simp only [if_pos hw]
      have hb := wrap_bounds (anim s.mActiveAnimation).start
        (anim s.mActiveAnimation).endFrame hA0 hAse
        (s.mActiveFrame + s.mSpeed * dt * (anim s.mActiveAnimation).fps) hw
      exact ⟨⟨h0, h1⟩, hsp, hb.1, hb.2⟩
    · simp only [if_neg hw]
      refine ⟨⟨h0, h1⟩, hsp, le_trans hlo hfge, ?_⟩
      show s.mActiveFrame + s.mSpeed * dt * (anim s.mActiveAnimation).fps
          < ((anim s.mActiveAnimation).endFrame : ℚ) + 1
      linarith [not_le.mp hw]

theorem cursorInv_init : CursorInv Md2.init := by
  refine ⟨⟨by norm_num [Md2.init], by norm_num [Md2.init]⟩, rfl, ?_, ?_⟩ <;>
    simp only [Md2.init, anim_zero_eval] <;> norm_num

theorem cursorInv_of_reachableNN {s : Md2} (h : ReachableNN s) : CursorInv s := by
  induction h with
  | init => exact cursorInv_init
  | play _ ih => exact cursorInv_play ih
  | pause _ ih => exact cursorInv_pause ih
  | next _ ih => exact cursorInv_next ih
  | prev _ ih => exact cursorInv_prev ih
  | update dt hdt _ ih => exact cursorInv_update dt hdt ih

/-- A zero-elapsed-time update does not move the cursor of any state
satisfying the cursor invariant. -/
theorem update_zero_cursor {s : Md2} (h : CursorInv s) :
    (Md2.Update 0 s).mActiveFrame = s.mActiveFrame := by
  obtain ⟨⟨h0, h1⟩, hsp, hlo, hhi⟩ := h
  obtain ⟨hA0, hAse, _⟩ := anim_table_facts _ h0 h1
  by_cases hp : s.mIsPlaying = false
  · simp only [Md2.Update, if_pos hp]
  · simp only [Md2.Update, if_neg hp]
    have hzero : s.mActiveFrame + s.mSpeed * 0 * (anim s.mActiveAnimation).fps
        = s.mActiveFrame := by ring
    rw [hzero]
    by_cases hw : ((anim s.mActiveAnimation).endFrame : ℚ) ≤ s.mActiveFrame
    · simp only [if_pos hw]
      exact wrap_id (anim s.mActiveAnimation).start
        (anim s.mActiveAnimation).endFrame hA0 hAse s.mActiveFrame hw hhi
    · simp only [if_neg hw]

theorem next_anim_eq (s : Md2) : s.NextAnimation.mActiveAnimation
    = (if 20 ≤ s.mActiveAnimation + 1 then 0 else s.mActiveAnimation + 1) := rfl

theorem prev_anim_eq (s : Md2) : s.PreviousAnimation.mActiveAnimation
    = (if s.mActiveAnimation - 1 = -1 then s.mActiveAnimation - 1 + 20
      else s.mActiveAnimation - 1) := rfl

theorem next_frame_eq (s : Md2) : s.NextAnimation.mActiveFrame
    = ((anim s.NextAnimation.mActiveAnimation).start : ℚ) := rfl

theorem prev_frame_eq (s : Md2) : s.PreviousAnimation.mActiveFrame
    = ((anim s.PreviousAnimation.mActiveAnimation).start : ℚ) := rfl

theorem iterate_next_reaches : ∀ n : ℕ, n ≤ 19 →
    Reachable (Md2.NextAnimation^[n] Md2.init) ∧
    (Md2.NextAnimation^[n] Md2.init).mActiveAnimation = (n : ℤ) := by
  intro n
  induction n with
  | zero => exact fun _ => ⟨Reachable.init, by norm_num [Md2.init]⟩
  | succ k ih =>
    intro hk
    obtain ⟨hr, ha⟩ := ih (by omega)
    rw [Function.iterate_succ_apply']
    refine ⟨Reachable.next hr, ?_⟩
    rw [next_anim_eq, ha, if_neg (by omega : ¬ (20 : ℤ) ≤ (k : ℤ) + 1)]
    push_cast
    ring

/-- C10: starting from the default playback state, no sequence of Play,
Pause, NextAnimation, PreviousAnimation and Update calls ever makes the
active sequence index equal 20 (the BOOM entry), and every index 0..19 is
reachable, so the reachable active-sequence indices are exactly 0..19. -/
theorem boom_never_played :
    (∀ s : Md2, Reachable s → s.mActiveAnimation ≠ 20) ∧
    (∀ i : ℤ, 0 ≤ i → i ≤ 19 → ∃ s : Md2, Reachable s ∧ s.mActiveAnimation = i) := by
  constructor
  · intro s hs
    obtain ⟨ha, hb⟩ := invIdx_of_reachable hs
    omega
  · intro i h0 h1
    obtain ⟨hr, ha⟩ := iterate_next_reaches i.toNat (by omega)
    exact ⟨_, hr, ha.trans (Int.toNat_of_nonneg h0)⟩

/-- Witness for C10: the hypotheses hold at the initial state and at
index 5. -/
theorem boom_never_played_witness :
    Md2.init.mActiveAnimation ≠ 20 ∧
    ∃ s : Md2, Reachable s ∧ s.mActiveAnimation = 5 :=
  ⟨boom_never_played.1 Md2.init Reachable.init,
   boom_never_played.2 5 (by norm_num) (by norm_num)⟩

/-- C7: for every reachable playback state, NextAnimation then
PreviousAnimation (and vice versa) returns the active sequence index to its
original value, with the frame cursor equal to that sequence's start
frame. -/
theorem next_prev_roundtrip (s : Md2) (h : Reachable s) :
    s.NextAnimation.PreviousAnimation.mActiveAnimation = s.mActiveAnimation ∧
    s.NextAnimation.PreviousAnimation.mActiveFrame
      = ((anim s.mActiveAnimation).start : ℚ) ∧
    s.PreviousAnimation.NextAnimation.mActiveAnimation = s.mActiveAnimation ∧
    s.PreviousAnimation.NextAnimation.mActiveFrame
      = ((anim s.mActiveAnimation).start : ℚ) := by
  obtain ⟨h0, h1⟩ := invIdx_of_reachable h
  have e1 : s.NextAnimation.PreviousAnimation.mActiveAnimation
      = s.mActiveAnimation := by
    rw [prev_anim_eq, next_anim_eq]
    split_ifs <;> omega
  have e2 : s.PreviousAnimation.NextAnimation.mActiveAnimation
      = s.mActiveAnimation := by
    rw [next_anim_eq, prev_anim_eq]
    split_ifs <;> omega
  exact ⟨e1, by rw [prev_frame_eq, e1], e2, by rw [next_frame_eq, e2]⟩

/-- Witness for C7 at the initial state. -/
theorem next_prev_roundtrip_witness :
    Md2.init.NextAnimation.PreviousAnimation.mActiveAnimation
      = Md2.init.mActiveAnimation :=
  (next_prev_roundtrip Md2.init Reachable.init).1

/-- A playback state whose active index is the table's second-to-last
entry (19). -/
def s19c : Md2 :=
  { Md2.init with mActiveAnimation := 19 }

/-- C2 counterexample: NextAnimation at the second-to-last entry (19)
yields the first entry (0), not the last entry (20), and
PreviousAnimation at the first entry yields entry 19, not the last
entry (20). -/
theorem next_at_second_to_last_not_last :
    (Md2.NextAnimation s19c).mActiveAnimation = 0 ∧
    ¬ (Md2.NextAnimation s19c).mActiveAnimation = 20 ∧
    (Md2.PreviousAnimation Md2.init).mActiveAnimation = 19 ∧
    ¬ (Md2.PreviousAnimation Md2.init).mActiveAnimation = 20 := by
  refine ⟨?_, ?_, ?_, ?_⟩ <;>
    norm_num [next_anim_eq, prev_anim_eq, s19c, Md2.init]

/-- C2 amended: NextAnimation advances the active index by 1 but wraps to
the first entry already when the incremented index reaches the last
entry's index (20), so from index 19 it yields 0 and the last entry is
never selected; PreviousAnimation decrements, wrapping from the first
entry to index 19 (the second-to-last); both reset the cursor to the new
active sequence's start frame (an integer, zero fractional part). -/
theorem next_prev_animation_amended (s : Md2) (h0 : 0 ≤ s.mActiveAnimation)
    (h1 : s.mActiveAnimation ≤ 19) :
    (s.mActiveAnimation < 19 →
      s.NextAnimation.mActiveAnimation = s.mActiveAnimation + 1) ∧
    (s.mActiveAnimation = 19 → s.NextAnimation.mActiveAnimation = 0) ∧
    s.NextAnimation.mActiveFrame
      = ((anim s.NextAnimation.mActiveAnimation).start : ℚ) ∧
    (0 < s.mActiveAnimation →
      s.PreviousAnimation.mActiveAnimation = s.mActiveAnimation - 1) ∧
    (s.mActiveAnimation = 0 → s.PreviousAnimation.mActiveAnimation = 19) ∧
    s.PreviousAnimation.mActiveFrame
      = ((anim s.PreviousAnimation.mActiveAnimation).start : ℚ) := by
  refine ⟨fun h => ?_, fun h => ?_, next_frame_eq s, fun h => ?_, fun h => ?_,
    prev_frame_eq s⟩
  · rw [next_anim_eq]; split_ifs <;> omega
  · rw [next_anim_eq]; split_ifs <;> omega
  · rw [prev_anim_eq]; split_ifs <;> omega
  · rw [prev_anim_eq]; split_ifs <;> omega

/-- Witness for C2 amended at the initial state. -/
theorem next_prev_animation_amended_witness :
    Md2.init.NextAnimation.mActiveAnimation = Md2.init.mActiveAnimation + 1 ∧
    Md2.init.PreviousAnimation.mActiveAnimation = 19 := by
  obtain ⟨hn, _, _, _, hp, _⟩ := next_prev_animation_amended Md2.init
    (by norm_num [Md2.init]) (by norm_num [Md2.init])
  exact ⟨hn (by norm_num [Md2.init]), hp (by norm_num [Md2.init])⟩

theorem reachableNN_iterate_update_zero {s : Md2} (h : ReachableNN s) :
    ∀ n : ℕ, ReachableNN ((Md2.Update 0)^[n] s) := by
  intro n
  induction n with
  | zero => exact h
  | succ k ih =>
    rw [Function.iterate_succ_apply']
    exact ReachableNN.update 0 le_rfl ih

/-- C8: for every playback state reachable with non-negative time steps,
calling Update(0) any number of times never changes the frame cursor. -/
theorem update_zero_never_moves_cursor (s : Md2) (h : ReachableNN s) (n : ℕ) :
    ((Md2.Update 0)^[n] s).mActiveFrame = s.mActiveFrame := by
  induction n with
  | zero => rfl
  | succ k ih =>
    rw [Function.iterate_succ_apply',
      update_zero_cursor (cursorInv_of_reachableNN
        (reachableNN_iterate_update_zero h k)), ih]

/-- Witness for C8: three zero-time updates at the initial state. -/
theorem update_zero_never_moves_cursor_witness :
    ((Md2.Update 0)^[3] Md2.init).mActiveFrame = Md2.init.mActiveFrame :=
  update_zero_never_moves_cursor Md2.init ReachableNN.init 3

/-- C3 amended: for every playback state reachable with non-negative time
steps, the integer part of the frame cursor lies in the closed interval
[sequence.start, sequence.end] of the active sequence; it can equal
sequence.end exactly, so the half-open interval of the original claim
fails. -/
theorem cursor_integer_part_in_closed_range (s : Md2) (h : ReachableNN s) :
    (anim s.mActiveAnimation).start ≤ trunc s.mActiveFrame ∧
    trunc s.mActiveFrame ≤ (anim s.mActiveAnimation).endFrame := by
  obtain ⟨⟨h0, h1⟩, hsp, hlo, hhi⟩ := cursorInv_of_reachableNN h
  obtain ⟨hA0, hAse, _⟩ := anim_table_facts _ h0 h1
  have hf0 : (0 : ℚ) ≤ s.mActiveFrame :=
    le_trans (by exact_mod_cast hA0) hlo
  constructor
  · exact le_trunc _ _ hf0 hlo
  · have ht : (trunc s.mActiveFrame : ℚ) <
        ((anim s.mActiveAnimation).endFrame : ℚ) + 1 :=
      lt_of_le_of_lt (trunc_le _ hf0) hhi
    have htz : trunc s.mActiveFrame < (anim s.mActiveAnimation).endFrame + 1 := by
      exact_mod_cast ht
    omega

/-- Witness for C3 amended at the initial state. -/
theorem cursor_integer_part_witness :
    (anim Md2.init.mActiveAnimation).start ≤ trunc Md2.init.mActiveFrame ∧
    trunc Md2.init.mActiveFrame ≤ (anim Md2.init.mActiveAnimation).endFrame :=
  cursor_integer_part_in_closed_range Md2.init ReachableNN.init

theorem trunc_ofNat_eval (n : ℕ) : trunc ((n : ℤ) : ℚ) = (n : ℤ) :=
  trunc_intCast (n : ℤ)

theorem update31_cursor : (Md2.Update 31 Md2.init).mActiveFrame = 39 := by
  have hnp : ¬ Md2.init.mIsPlaying = false := by norm_num [Md2.init]
  have hanim : anim Md2.init.mActiveAnimation = ⟨0, 39, 9⟩ := rfl
  have h279 : trunc (279 : ℚ) = 279 := by
    rw [show (279 : ℚ) = ((279 : ℤ) : ℚ) from by norm_num]
    exact trunc_intCast 279
  simp only [Md2.Update, if_neg hnp, hanim]
  rw [apply_ite Md2.mActiveFrame]
  rw [show Md2.init.mActiveFrame + Md2.init.mSpeed * 31 * (9 : ℚ) = 279 from by
    norm_num [Md2.init]]
  rw [if_pos (show ((39 : ℤ) : ℚ) ≤ 279 from by norm_num)]
  show (279 : ℚ) - (trunc (279 : ℚ) : ℚ)
      + fmod ((trunc (279 : ℚ) : ℚ) - ((0 : ℤ) : ℚ))
        ((Animation.FrameCount ⟨0, 39, 9⟩ : ℤ) : ℚ)
      + ((0 : ℤ) : ℚ) = 39
  rw [h279]
  have hc := fmod_intCast 279 40 (by norm_num) (by norm_num)
  rw [show (279 : ℤ) % 40 = 39 from by decide] at hc
  have harg1 : ((279 : ℤ) : ℚ) - ((0 : ℤ) : ℚ) = ((279 : ℤ) : ℚ) := by norm_num
  have harg2 : ((Animation.FrameCount ⟨0, 39, 9⟩ : ℤ) : ℚ) = ((40 : ℤ) : ℚ) := by
    norm_num [Animation.FrameCount]
  rw [harg1, harg2, hc]
  norm_num

/-- C3 counterexample: from the initial state, a single Update with the
non-negative step 31 (an allowed step) lands the cursor exactly on the
active sequence end frame (39), so the cursor's integer part is not in
the half-open interval [start, end) even though the state is playing. -/
theorem update_can_land_on_sequence_end :
    (Md2.Update 31 Md2.init).mIsPlaying = true ∧
    ReachableNN (Md2.Update 31 Md2.init) ∧
    ¬ (trunc (Md2.Update 31 Md2.init).mActiveFrame
        < (anim (Md2.Update 31 Md2.init).mActiveAnimation).endFrame) := by
  have hidx : (Md2.Update 31 Md2.init).mActiveAnimation = 0 :=
    (update_proj 31 Md2.init).1.trans (by norm_num [Md2.init])
  refine ⟨?_, ReachableNN.update 31 (by norm_num) ReachableNN.init, ?_⟩
  · rw [(update_proj 31 Md2.init).2.2]
    norm_num [Md2.init]
  · rw [update31_cursor, hidx, anim_zero_eval]
    have h39 : trunc (39 : ℚ) = 39 := by
      rw [show (39 : ℚ) = ((39 : ℤ) : ℚ) by norm_num]
      exact trunc_intCast 39
    rw [h39]
    norm_num

/-- A header whose every field is zero. -/
def header0 : Md2Header :=
  ⟨0, 0, 0, 0, 0, 0, 0, 0, 0, 0, 0, 0, 0, 0, 0, 0, 0⟩

/-- A stream that opens and yields `header0`, with default section data. -/
def bs0 : ByteStream :=
  ⟨true, header0, fun _ => default, fun _ => default, fun _ => default,
   fun _ => (0, 0, 0), fun _ => (0, 0, 0), fun _ => [], fun _ _ => default⟩

/-- A header that passes every check of the loader: valid ident and
version, one triangle, one vertex, 198 frames. -/
def headerOK : Md2Header :=
  { ident := identIDP2, version := 8, skinWidth := 0, skinHeight := 0,
    frameSize := 0, skinCnt := 0, vertexCnt := 1, texCoordCnt := 0,
    triangleCnt := 1, glcmdCnt := 0, frameCnt := 198, skinOffset := 0,
    texCoordOffset := 0, triangleOffset := 0, frameOffset := 0,
    glcmdOffset := 0, endOffset := 0 }

/-- A stream whose load succeeds. -/
def bsOK : ByteStream :=
  { bs0 with header := headerOK }

/-- A stream identical to `bsOK` except that its frame count is 199. -/
def bs199 : ByteStream :=
  { bs0 with header := { headerOK with frameCnt := 199 } }

/-- A stream identical to `bsOK` except that its frame count is 12345. -/
def bs12345 : ByteStream :=
  { bs0 with header := { headerOK with frameCnt := 12345 } }

/-- A stream identical to `bsOK` except that its version is 9. -/
def bsV9 : ByteStream :=
  { bs0 with header := { headerOK with version := 9 } }

/-- A stream identical to `bsOK` except that its skin count is -1. -/
def bsNegSkin : ByteStream :=
  { bs0 with header := { headerOK with skinCnt := -1 } }

/-- A stream identical to `bsOK` except that its triangle count is 0 and
its skin count is 3. -/
def bsTri0 : ByteStream :=
  { bs0 with header := { headerOK with triangleCnt := 0, skinCnt := 3 } }

/-- C6: for every stream that opens, a magic identifier different from the
packed ASCII value of IDP2 fails with BadIdent regardless of every other
field, and a correct identifier with a version different from 8 fails with
BadVersion. -/
theorem load_bad_ident_version (dst : Md2) (bs : ByteStream)
    (hopen : bs.openOK = true) :
    (bs.header.ident ≠ identIDP2 →
      (Md2.Load dst bs).snd = some Md2Error.BadIdent) ∧
    (bs.header.ident = identIDP2 → bs.header.version ≠ 8 →
      (Md2.Load dst bs).snd = some Md2Error.BadVersion) := by
  constructor
  · intro h1
    simp only [Md2.Load, hopen]
    rw [if_neg (by simp), if_pos h1]
  · intro h1 h2
    simp only [Md2.Load, hopen]
    rw [if_neg (by simp), if_neg (not_not_intro h1), if_pos h2]

/-- Witness for C6: the zero header yields BadIdent; a valid ident with
version 9 yields BadVersion. -/
theorem load_bad_ident_version_witness :
    (Md2.Load Md2.init bs0).snd = some Md2Error.BadIdent ∧
    (Md2.Load Md2.init bsV9).snd = some Md2Error.BadVersion :=
  ⟨(load_bad_ident_version Md2.init bs0 rfl).1
      (by norm_num [bs0, header0, identIDP2]),
   (load_bad_ident_version Md2.init bsV9 rfl).2
      (by norm_num [bsV9, bs0, headerOK]) (by norm_num [bsV9, bs0, headerOK])⟩

/-- C1 counterexample: a stream that opens and passes the ident, version
and triangle-count checks but carries frame count exactly 199 (the count
implied by the animation table) fails with BadFrameData, while the same
stream with frame count 198 loads successfully; this contradicts the claim
that a frame count of exactly 199 does not fail. -/
theorem load_frame_count_199_fails :
    (Md2.Load Md2.init bs199).snd = some Md2Error.BadFrameData ∧
    (Md2.Load Md2.init bsOK).snd = none := by
  constructor <;>
    norm_num [Md2.Load, Md2._Clear, Md2.init, bs199, bsOK, bs0, headerOK,
      header0, identIDP2, toInt16, readCounts, readSkins, readTexCoords,
      readTriangles, allocFrames, readFrames]

/-- C1 amended: for every stream that opens and passes the ident, version
and triangle-count checks, the load fails with BadFrameData if and only if
the frame-count field, truncated to the int16 member that stores it,
differs from 198 — not 199 as the claim states; a frame count of exactly
199 fails. -/
theorem load_badframedata_iff (dst : Md2) (bs : ByteStream)
    (hopen : bs.openOK = true) (hident : bs.header.ident = identIDP2)
    (hver : bs.header.version = 8)
    (htri : 0 < toInt16 bs.header.triangleCnt) :
    ((Md2.Load dst bs).snd = some Md2Error.BadFrameData ↔
      toInt16 bs.header.frameCnt ≠ 198) := by
  obtain ⟨c1, c2, c3, c4, c5⟩ := loadPrefix_counts dst bs
  simp only [Md2.Load, hopen]
  rw [if_neg (by simp), if_neg (not_not_intro hident), if_neg (not_not_intro hver)]
  rw [if_pos (by rw [c3]; exact htri)]
  by_cases hf : toInt16 bs.header.frameCnt = 198
  · rw [if_pos (by rw [(readTriangles_count_proj _ bs).2.2.2.1, c4]; exact hf)]
    split_ifs with h5 <;> simp [hf]
  · rw [if_neg (by rw [(readTriangles_count_proj _ bs).2.2.2.1, c4]; exact hf)]
    simp [hf]

/-- Witness for C1 amended: a frame count of 12345 truncates to 12345 and
fails with BadFrameData. -/
theorem load_badframedata_iff_witness :
    (Md2.Load Md2.init bs12345).snd = some Md2Error.BadFrameData :=
  (load_badframedata_iff Md2.init bs12345 rfl
    (by norm_num [bs12345, bs0, headerOK])
    (by norm_num [bs12345, bs0, headerOK])
    (by norm_num [bs12345, bs0, headerOK, toInt16])).mpr
    (by norm_num [bs12345, bs0, headerOK, toInt16])

/-- C5 counterexample: a stream whose header carries skin count -1 loads
successfully, yet the SkinCount accessor afterwards returns -1, which is
negative; so not all counts are non-negative after a successful load. -/
theorem load_success_negative_skincount :
    (Md2.Load Md2.init bsNegSkin).snd = none ∧
    (Md2.Load Md2.init bsNegSkin).fst.SkinCount = -1 := by
  constructor <;>
    norm_num [Md2.Load, Md2.SkinCount, Md2._Clear, Md2.init, bsNegSkin, bs0,
      headerOK, header0, identIDP2, toInt16, readCounts, readSkins,
      readTexCoords, readTriangles, allocFrames, readFrames]

/-- C5 amended: after every successful load, TriangleCount and VertexCount
are positive and FrameCount equals 198 (hence positive); SkinCount and
TexCoordCount merely equal the int16-truncated header fields and can be
negative. -/
theorem load_success_counts (dst : Md2) (bs : ByteStream)
    (h : (Md2.Load dst bs).snd = none) :
    0 < (Md2.Load dst bs).fst.TriangleCount ∧
    0 < (Md2.Load dst bs).fst.VertexCount ∧
    (Md2.Load dst bs).fst.FrameCount = 198 ∧
    (Md2.Load dst bs).fst.SkinCount = toInt16 bs.header.skinCnt ∧
    (Md2.Load dst bs).fst.TexCoordCount = toInt16 bs.header.texCoordCnt := by
  obtain ⟨c1, c2, c3, c4, c5⟩ := loadPrefix_counts dst bs
  simp only [Md2.Load, Md2.TriangleCount, Md2.VertexCount, Md2.FrameCount,
    Md2.SkinCount, Md2.TexCoordCount] at h ⊢
  split_ifs at h ⊢ with hop hid hvr h1 h2 h3
  any_goals simp at h
  obtain ⟨f1, f2, f3, f4, f5⟩ := readFrames_count_proj
    (allocFrames (readTriangles
      (readTexCoords (readSkins (readCounts dst._Clear bs.header) bs) bs) bs)) bs
  obtain ⟨a1, a2, a3, a4, a5⟩ := allocFrames_count_proj
    (readTriangles (readTexCoords (readSkins (readCounts dst._Clear bs.header) bs) bs) bs)
  obtain ⟨r1, r2, r3, r4, r5⟩ := readTriangles_count_proj
    (readTexCoords (readSkins (readCounts dst._Clear bs.header) bs) bs) bs
  have g1 : 0 < (readFrames (allocFrames (readTriangles
      (readTexCoords (readSkins (readCounts dst._Clear bs.header) bs) bs) bs)) bs).mTriangleCnt := by
    rw [f3, a3, r3]; exact h1
  have g2 : 0 < (readFrames (allocFrames (readTriangles
      (readTexCoords (readSkins (readCounts dst._Clear bs.header) bs) bs) bs)) bs).mVertexCnt := by
    rw [f5, a5]; exact h3
  have g3 : (readFrames (allocFrames (readTriangles
      (readTexCoords (readSkins (readCounts dst._Clear bs.header) bs) bs) bs)) bs).mFrameCnt = 198 := by
    rw [f4, a4]; exact h2
  have g4 : (readFrames (allocFrames (readTriangles
      (readTexCoords (readSkins (readCounts dst._Clear bs.header) bs) bs) bs)) bs).mSkinCnt
      = toInt16 bs.header.skinCnt := by
    rw [f1, a1, r1]; exact c1
  have g5 : (readFrames (allocFrames (readTriangles
      (readTexCoords (readSkins (readCounts dst._Clear bs.header) bs) bs) bs)) bs).mTexCoordCnt
      = toInt16 bs.header.texCoordCnt := by
    rw [f2, a2, r2]; exact c2
  exact ⟨g1, g2, g3, g4, g5⟩

/-- Witness for C5 amended: the concrete stream `bsOK` loads successfully
and the positive-count conclusions hold. -/
theorem load_success_counts_witness :
    0 < (Md2.Load Md2.init bsOK).fst.TriangleCount ∧
    0 < (Md2.Load Md2.init bsOK).fst.VertexCount ∧
    (Md2.Load Md2.init bsOK).fst.FrameCount = 198 :=
  ⟨(load_success_counts Md2.init bsOK (by
      norm_num [Md2.Load, Md2._Clear, Md2.init, bsOK, bs0, headerOK, header0,
        identIDP2, toInt16, readCounts, readSkins, readTexCoords,
        readTriangles, allocFrames, readFrames])).1,
   (load_success_counts Md2.init bsOK (by
      norm_num [Md2.Load, Md2._Clear, Md2.init, bsOK, bs0, headerOK, header0,
        identIDP2, toInt16, readCounts, readSkins, readTexCoords,
        readTriangles, allocFrames, readFrames])).2.1,
   (load_success_counts Md2.init bsOK (by
      norm_num [Md2.Load, Md2._Clear, Md2.init, bsOK, bs0, headerOK, header0,
        identIDP2, toInt16, readCounts, readSkins, readTexCoords,
        readTriangles, allocFrames, readFrames])).2.2.1⟩

/-- C4 counterexample: a load failing with BadTriangleData (triangle count
zero) keeps the header-derived skin count (3) in the destination, so the
destination is not in the cleared state after the error. -/
theorem load_error_leaves_partial_state :
    (Md2.Load Md2.init bsTri0).snd = some Md2Error.BadTriangleData ∧
    (Md2.Load Md2.init bsTri0).fst.mSkinCnt = 3 ∧
    (Md2.Load Md2.init bsTri0).fst ≠ Md2.init._Clear := by
  have h1 : (Md2.Load Md2.init bsTri0).snd = some Md2Error.BadTriangleData := by
    norm_num [Md2.Load, Md2._Clear, Md2.init, bsTri0, bs0, headerOK, header0,
      identIDP2, toInt16, readCounts, readSkins, readTexCoords]
  have h2 : (Md2.Load Md2.init bsTri0).fst.mSkinCnt = 3 := by
    norm_num [Md2.Load, Md2._Clear, Md2.init, bsTri0, bs0, headerOK, header0,
      identIDP2, toInt16, readCounts, readSkins, readTexCoords]
  refine ⟨h1, h2, fun hc => ?_⟩
  have h3 := congrArg Md2.mSkinCnt hc
  rw [h2] at h3
  norm_num [Md2._Clear, Md2.init] at h3

/-- C4 amended: any previously loaded state is released before the new
load begins (loading into a destination equals loading into the cleared
destination), and a load failing with FileNotFound, BadIdent or
BadVersion leaves the destination exactly in the cleared state; a load
failing with BadTriangleData, BadFrameData or BadVertexData can instead
leave the header-derived counts and the sections already read in the
destination. -/
theorem load_clear_semantics (dst : Md2) (bs : ByteStream) :
    Md2.Load dst bs = Md2.Load dst._Clear bs ∧
    (∀ e, (Md2.Load dst bs).snd = some e →
      e = Md2Error.FileNotFound ∨ e = Md2Error.BadIdent ∨ e = Md2Error.BadVersion →
      (Md2.Load dst bs).fst = dst._Clear) := by
  have hcc : dst._Clear._Clear = dst._Clear := rfl
  constructor
  · simp only [Md2.Load, hcc]
  · intro e he hcase
    simp only [Md2.Load] at he ⊢
    split_ifs at he ⊢ <;> simp_all <;>
      (rcases hcase with rfl | rfl | rfl <;> simp at he)

/-- Witness for C4 amended: at a stream with a bad ident, the destination
after the failed load equals the cleared state. -/
theorem load_clear_semantics_witness :
    (Md2.Load Md2.init bs0).fst = Md2.init._Clear :=
  (load_clear_semantics Md2.init bs0).2 Md2Error.BadIdent
    (by norm_num [Md2.Load, Md2.init, bs0, header0, identIDP2])
    (Or.inr (Or.inl rfl))

/-- The triangle array of a model (`mTriangles`; empty when NULL). -/
def Md2.triangles (m : Md2) : List Triangle :=
  m.mTriangles.getD []

/-- The frame array of a model (`mFrames`; empty when NULL). -/
def Md2.frames (m : Md2) : List Frame :=
  m.mFrames.getD []

/-- Decompressed world position of a compressed vertex of a frame:
per-axis scale times quantized byte coordinate plus translation,
elementwise. -/
def decompress (fr : Frame) (v : FrameVertex) : ℚ × ℚ × ℚ :=
  (fr.scale.1 * (v.x : ℚ) + fr.translation.1,
   fr.scale.2.1 * (v.y : ℚ) + fr.translation.2.1,
   fr.scale.2.2 * (v.z : ℚ) + fr.translation.2.2)

/-- The compressed vertex of frame `k` referenced by corner `j` of
triangle `i`. -/
def cornerVertex (m : Md2) (k : ℤ) (i j : ℕ) : FrameVertex :=
  ((m.frames.getD k.toNat default).vertices).getD
    ((m.triangles.getD i default).iPos.getD j 0) default

/-- A model in the state a successful load establishes: positive triangle
and vertex counts, 198 frames, and owned arrays of matching lengths. -/
def WellLoaded (m : Md2) : Prop :=
  0 < m.mTriangleCnt ∧ 0 < m.mVertexCnt ∧ m.mFrameCnt = 198 ∧
  (∃ ts, m.mTriangles = some ts ∧ ts.length = m.mTriangleCnt.toNat) ∧
  (∃ fs, m.mFrames = some fs ∧ fs.length = 198 ∧
    ∀ fr ∈ fs, fr.vertices.length = m.mVertexCnt.toNat)

theorem foldl_set_length (g : ℕ → Vertex) (l : List ℕ) :
    ∀ buf : List Vertex,
      (l.foldl (fun b i => b.set (i % 65536) (g i)) buf).length = buf.length := by
  induction l with
  | nil => intro buf; rfl
  | cons x xs ih =>
    intro buf
    rw [List.foldl_cons, ih, List.length_set]

/-- Buffer positions at or beyond 65536 are never written by the
generator loop: every write index is a value modulo 65536. -/
theorem foldl_set_mod_high (g : ℕ → Vertex) :
    ∀ (n : ℕ) (buf : List Vertex) (idx : ℕ), 65536 ≤ idx →
      ((List.range n).foldl (fun b i => b.set (i % 65536) (g i)) buf).getD idx default
        = buf.getD idx default := by
  intro n
  induction n with
  | zero => intro buf idx _; rfl
  | succ m ih =>
    intro buf idx hidx
    rw [List.range_succ, List.foldl_append, List.foldl_cons, List.foldl_nil]
    rw [List.getD_eq_getElem?_getD,
      List.getElem?_set_ne (by omega : m % 65536 ≠ idx),
      ← List.getD_eq_getElem?_getD]
    exact ih buf idx hidx

/-- When the loop writes at most 65536 records, no write index wraps, so
record `idx` holds exactly the data of iteration `idx`. -/
theorem foldl_set_mod_lookup (g : ℕ → Vertex) :
    ∀ n : ℕ, n ≤ 65536 → ∀ (buf : List Vertex) (idx : ℕ),
      idx < n → idx < buf.length →
      ((List.range n).foldl (fun b i => b.set (i % 65536) (g i)) buf).getD idx default
        = g idx := by
  intro n
  induction n with
  | zero => intro _ buf idx h _; omega
  | succ m ih =>
    intro hn buf idx hidx hbuf
    rw [List.range_succ, List.foldl_append, List.foldl_cons, List.foldl_nil]
    by_cases he : idx = m
    · subst he
      rw [show idx % 65536 = idx from Nat.mod_eq_of_lt (by omega),
        List.getD_eq_getElem?_getD,
        List.getElem?_set_self (by rw [foldl_set_length]; exact hbuf)]
      rfl
    · rw [List.getD_eq_getElem?_getD,
        List.getElem?_set_ne (by omega : m % 65536 ≠ idx),
        ← List.getD_eq_getElem?_getD]
      exact ih (by omega) buf idx (by omega) hbuf

theorem genCorner_at_integer (m : Md2) (k : ℤ)
    (hcur : m.mActiveFrame = (k : ℚ)) (i j : ℕ) :
    (m.genCorner i j).p
      = decompress (m.frames.getD k.toNat default) (cornerVertex m k i j) ∧
    (m.genCorner i j).n = normalAt (cornerVertex m k i j).n := by
  constructor <;>
    simp [Md2.genCorner, Md2.frames, Md2.triangles, cornerVertex, decompress,
      normalAt, hcur, trunc_intCast]

/-- C9 amended: for every successfully loaded model whose output does not
overrun the 16-bit output index (TriangleCount * 3 at most 65536) and
whose frame cursor equals an integer frame index within the active
sequence (zero fractional part, lerp 0), GenVertices writes each of the
TriangleCount*3 records of a full-capacity buffer with position exactly
that frame's decompressed vertex (scale times quantized byte plus
translation, elementwise) and normal exactly that vertex's normal-table
entry, with no blending contribution from the next frame; for larger
TriangleCount the uint16 output index wraps modulo 2^16, later corners
overwrite earlier records and positions at or beyond 65536 are never
written. -/
theorem genvertices_no_blend (m : Md2) (k : ℤ) (buf : List Vertex)
    (hw : WellLoaded m)
    (hbuf : buf.length = m.mTriangleCnt.toNat * 3)
    (hnowrap : m.mTriangleCnt.toNat * 3 ≤ 65536)
    (hcur : m.mActiveFrame = (k : ℚ))
    (hlo : (anim m.mActiveAnimation).start ≤ k)
    (hhi : k ≤ (anim m.mActiveAnimation).endFrame)
    (idx : ℕ) (hidx : idx < m.mTriangleCnt.toNat * 3) :
    (Md2.GenVertices m buf).length = m.mTriangleCnt.toNat * 3 ∧
    ((Md2.GenVertices m buf).getD idx default).p
      = decompress (m.frames.getD k.toNat default)
          (cornerVertex m k (idx / 3) (idx % 3)) ∧
    ((Md2.GenVertices m buf).getD idx default).n
      = normalAt (cornerVertex m k (idx / 3) (idx % 3)).n := by
  obtain ⟨hp, hn⟩ := genCorner_at_integer m k hcur (idx / 3) (idx % 3)
  have hlen : (Md2.GenVertices m buf).length = m.mTriangleCnt.toNat * 3 := by
    rw [Md2.GenVertices, foldl_set_length, hbuf]
  have hup : (Md2.GenVertices m buf).getD idx default
      = m.genCorner (idx / 3) (idx % 3) := by
    rw [Md2.GenVertices]
    exact foldl_set_mod_lookup (fun i => m.genCorner (i / 3) (i % 3))
      (m.mTriangleCnt.toNat * 3) hnowrap buf idx hidx (by rw [hbuf]; exact hidx)
  exact ⟨hlen, hup ▸ hp, hup ▸ hn⟩

/-- A concrete frame: one compressed vertex, unit scale, zero
translation. -/
def frame1 : Frame :=
  ⟨[⟨1, 2, 3, 4⟩], (1, 1, 1), (0, 0, 0), []⟩

/-- A concrete loaded model: one triangle whose corners all reference
vertex 0, and 198 copies of `frame1`. -/
def m1 : Md2 :=
  { Md2.init with
    mTriangles := some [⟨[0, 0, 0], [0, 0, 0]⟩],
    mFrames := some (List.replicate 198 frame1),
    mTriangleCnt := 1, mVertexCnt := 1, mFrameCnt := 198 }

/-- Witness for C9 amended at the concrete model `m1`, cursor 0, output
record 0, with a three-record buffer. -/
theorem genvertices_no_blend_witness :
    WellLoaded m1 ∧
    ((Md2.GenVertices m1 (List.replicate 3 default)).getD 0 default).p
      = decompress (m1.frames.getD (0 : ℤ).toNat default)
          (cornerVertex m1 0 (0 / 3) (0 % 3)) := by
  have hw : WellLoaded m1 := by
    refine ⟨by norm_num [m1, Md2.init], by norm_num [m1, Md2.init],
      by norm_num [m1, Md2.init], ⟨_, rfl, by norm_num [m1, Md2.init]⟩,
      ⟨_, rfl, by norm_num, fun fr hfr => ?_⟩⟩
    rw [List.eq_of_mem_replicate hfr]
    norm_num [frame1, m1, Md2.init]
  refine ⟨hw, (genvertices_no_blend m1 0 (List.replicate 3 default) hw
    (by norm_num [m1, Md2.init]) (by norm_num [m1, Md2.init])
    (by norm_num [m1, Md2.init])
    (show (0 : ℤ) ≤ 0 from le_refl 0) (show (0 : ℤ) ≤ 39 from by norm_num)
    0 (by norm_num [m1, Md2.init])).2.1⟩

/-- An output record distinct from every record the generator writes for
the models below. -/
def junkVertex : Vertex :=
  ⟨(7, 7, 7), (0, 0, 0), (0, 0)⟩

/-- A loaded model with 21846 triangles over one vertex, 198 copies of
`frame1`: its output size 21846 * 3 = 65538 exceeds 65536, so the uint16
output index wraps. Such a model is loadable (the triangle count fits the
int16 member and is positive). -/
def mBig : Md2 :=
  { Md2.init with
    mTriangles := some (List.replicate 21846 ⟨[0, 0, 0], [0, 0, 0]⟩),
    mFrames := some (List.replicate 198 frame1),
    mTriangleCnt := 21846, mVertexCnt := 1, mFrameCnt := 198 }

/-- An output buffer of the promised capacity 21846 * 3, filled with
`junkVertex`. -/
def bufBig : List Vertex :=
  List.replicate (21846 * 3) junkVertex

/-- C9 counterexample: the output index `i*3+j` is a `uint16_t`, so for
the successfully loadable model `mBig` (TriangleCount 21846, output size
65538 > 65536) the record at output position 65536 is never written:
after GenVertices at the integer cursor 0 it still holds the buffer's
prior contents, not the decompressed frame-0 vertex position the claim
asserts for every one of the TriangleCount*3 records. -/
theorem genvertices_uint16_wrap :
    WellLoaded mBig ∧
    mBig.mActiveFrame = ((0 : ℤ) : ℚ) ∧
    (anim mBig.mActiveAnimation).start ≤ (0 : ℤ) ∧
    (0 : ℤ) ≤ (anim mBig.mActiveAnimation).endFrame ∧
    bufBig.length = mBig.mTriangleCnt.toNat * 3 ∧
    65536 < mBig.mTriangleCnt.toNat * 3 ∧
    ((Md2.GenVertices mBig bufBig).getD 65536 default).p
      ≠ decompress (mBig.frames.getD (0 : ℤ).toNat default)
          (cornerVertex mBig 0 (65536 / 3) (65536 % 3)) := by
  have hw : WellLoaded mBig := by
    refine ⟨by norm_num [mBig, Md2.init], by norm_num [mBig, Md2.init],
      by norm_num [mBig, Md2.init], ⟨_, rfl, by simp only [mBig, Md2.init, List.length_replicate]; omega⟩,
      ⟨_, rfl, by norm_num, fun fr hfr => ?_⟩⟩
    rw [List.eq_of_mem_replicate hfr]
    norm_num [frame1, mBig, Md2.init]
  have huntouched : (Md2.GenVertices mBig bufBig).getD 65536 default
      = bufBig.getD 65536 default := by
    rw [Md2.GenVertices]
    exact foldl_set_mod_high (fun i => mBig.genCorner (i / 3) (i % 3))
      (mBig.mTriangleCnt.toNat * 3) bufBig 65536 (le_refl 65536)
  have hjunk : bufBig.getD 65536 default = junkVertex := by
    rw [bufBig, List.getD_eq_getElem?_getD, List.getElem?_replicate]
    norm_num
  refine ⟨hw, by norm_num [mBig, Md2.init],
    show (0 : ℤ) ≤ 0 from le_refl 0, show (0 : ℤ) ≤ 39 from by norm_num,
    by simp only [bufBig, mBig, Md2.init, List.length_replicate]; omega,
    by simp only [mBig, Md2.init]; omega, ?_⟩
  rw [huntouched, hjunk]
  norm_num [junkVertex, decompress, cornerVertex, Md2.frames, Md2.triangles,
    mBig, Md2.init, frame1, List.getD_eq_getElem?_getD, List.getElem?_replicate,
    Prod.ext_iff]
